import Mathlib

/-!
Shallow embedding of the bump.cpp 2D AABB collision engine
(`src/bump.cpp/bump/bump.cpp`, `bump.h`) over exact rationals.

Modelling conventions:
* the C++ `Number` (= `double`) is modelled by `ℚ`;
* `std::numeric_limits<double>::max()` is modelled by the exact value of
  `DBL_MAX`, namely `(2^53 - 1) * 2^971` (`numberMax` below);
* the opaque `Item` (= `void*`) is modelled by `ℕ`, with `nullptr` as `0`;
* a function that can `throw Exception::ComputationError` is modelled as
  returning `Except Unit _`, with `.error ()` for the throw;
* `World`'s `std::map<Cell*, bool> nonEmptyCells` is keyed by the cell's
  position `(iy, ix)` in the `rows` table, the stable identity of a cell;
* response functions call the member `World::project`; they are embedded
  with the projection function as an explicit parameter (`ProjectFn`) so
  that the arguments a response passes to it are visible; the snapshot's
  actual (stub) `World::project` is also embedded, as `World.project`.
-/

namespace BumpSpec

abbrev Number := ℚ

abbrev Item := ℕ

/-- `deltaError` from `bump.h` (1e-10). -/
def deltaError : ℚ := 1 / 10000000000

/-- Exact value of `std::numeric_limits<double>::max()`. -/
def numberMax : ℚ := (2 ^ 53 - 1) * 2 ^ 971

structure Point where
  x : ℚ
  y : ℚ
deriving DecidableEq

structure Rectangle where
  x : ℚ
  y : ℚ
  w : ℚ
  h : ℚ
deriving DecidableEq

structure Collision where
  move : Point
  normal : Point
  touch : Point
  itemRect : Rectangle
  otherRect : Rectangle
  overlaps : Bool
  ti : ℚ
  item : Item
  other : Item
  slide : Point
  bounce : Point
deriving DecidableEq

abbrev Filter := Item → Item → Bool

/-- `Response = std::tuple<Number, Number, std::vector<Collision>, std::uint32_t>`. -/
abbrev Response := ℚ × ℚ × List Collision × ℕ

/-- The shape of `World::project`, as called by the response functions. -/
abbrev ProjectFn :=
  Item → ℚ → ℚ → ℚ → ℚ → ℚ → ℚ → Filter → List Collision × ℕ

namespace Aux

/-- `Aux::sign`. -/
def sign (value : ℚ) : ℚ :=
  if value > 0 then 1 else if value < 0 then -1 else 0

/-- `Aux::nearest`. -/
def nearest (value first second : ℚ) : ℚ :=
  if |first - value| < |second - value| then first else second

end Aux

namespace Rect

/-- `Rect::getNearestCorner`. -/
def getNearestCorner (x y w h px py : ℚ) : ℚ × ℚ :=
  (Aux.nearest px x (x + w), Aux.nearest py y (y + h))

/-- The mutable state `(ti1, ti2, nx1, ny1, nx2, ny2)` of the
Liang–Barsky loop in `Rect::getSegmentIntersectionIndices`. -/
structure ClipState where
  ti1 : ℚ
  ti2 : ℚ
  nx1 : ℚ
  ny1 : ℚ
  nx2 : ℚ
  ny2 : ℚ
deriving DecidableEq

/-- One iteration of the side loop of `Rect::getSegmentIntersectionIndices`,
for a side with outward normal `(nx, ny)`, coefficient `p` and offset `q`. -/
def sideStep (nx ny p q : ℚ) (s : ClipState) : Except Unit ClipState :=
  if p = 0 then
    if q ≤ 0 then .error () else .ok s
  else
    if p < 0 then
      if q / p > s.ti2 then .error ()
      else if q / p > s.ti1 then .ok { s with ti1 := q / p, nx1 := nx, ny1 := ny }
      else .ok s
    else
      if q / p < s.ti1 then .error ()
      else if q / p < s.ti2 then .ok { s with ti2 := q / p, nx2 := nx, ny2 := ny }
      else .ok s

/-- `Rect::getSegmentIntersectionIndices`: the loop over the four sides
(left, right, top, bottom), unrolled exactly as the `switch` executes. -/
def getSegmentIntersectionIndices (x y w h x1 y1 x2 y2 ti1 ti2 : ℚ) :
    Except Unit (ℚ × ℚ × ℚ × ℚ × ℚ × ℚ) :=
  let dx := x2 - x1
  let dy := y2 - y1
  (sideStep (-1) 0 (-dx) (x1 - x) ⟨ti1, ti2, 0, 0, 0, 0⟩).bind fun s1 =>
  (sideStep 1 0 dx (x + w - x1) s1).bind fun s2 =>
  (sideStep 0 (-1) (-dy) (y1 - y) s2).bind fun s3 =>
  (sideStep 0 1 dy (y + h - y1) s3).bind fun s4 =>
  .ok (s4.ti1, s4.ti2, s4.nx1, s4.ny1, s4.nx2, s4.ny2)

/-- `Rect::getDiff` (Minkowski difference). -/
def getDiff (x1 y1 w1 h1 x2 y2 w2 h2 : ℚ) : ℚ × ℚ × ℚ × ℚ :=
  (x2 - x1 - w1, y2 - y1 - h1, w1 + w2, h1 + h2)

/-- `Rect::containsPoint`. -/
def containsPoint (x y w h px py : ℚ) : Bool :=
  decide (px - x > deltaError) && decide (py - y > deltaError) &&
    decide (x + w - px > deltaError) && decide (y + h - py > deltaError)

/-- `Rect::isIntersecting`. -/
def isIntersecting (x1 y1 w1 h1 x2 y2 w2 h2 : ℚ) : Bool :=
  decide (x1 < x2 + w2) && decide (x2 < x1 + w1) &&
    decide (y1 < y2 + h2) && decide (y2 < y1 + h1)

/-- `Rect::getSquareDistance`. -/
def getSquareDistance (x1 y1 w1 h1 x2 y2 w2 h2 : ℚ) : ℚ :=
  let dx := x1 - x2 + (w1 - w2) / 2
  let dy := y1 - y2 + (h1 - h2) / 2
  dx * dx + dy * dy

/-- `Rect::detectCollision` (10-argument overload).  The C++ function does
not catch `Exception::ComputationError` thrown by
`getSegmentIntersectionIndices`; the exception propagates, which the
embedding renders by propagating `.error ()`. -/
def detectCollision (x1 y1 w1 h1 x2 y2 w2 h2 goalX goalY : ℚ) :
    Except Unit Collision :=
  let dx := goalX - x1
  let dy := goalY - y1
  let d := getDiff x1 y1 w1 h1 x2 y2 w2 h2
  let x := d.1
  let y := d.2.1
  let w := d.2.2.1
  let h := d.2.2.2
  let ti0 : ℚ := 0
  if containsPoint x y w h 0 0 then
    -- item was intersecting other
    let c := getNearestCorner x y w h 0 0
    let wi := min w1 |c.1|
    let hi := min h1 |c.2|
    let ti := -wi * hi
    if dx = 0 ∧ dy = 0 then
      let c2 := getNearestCorner x y w h 0 0
      let px := if |c2.1| < |c2.2| then c2.1 else 0
      let py := if |c2.1| < |c2.2| then 0 else c2.2
      .ok ⟨⟨dx, dy⟩, ⟨Aux.sign px, Aux.sign py⟩, ⟨x1 + px, y1 + py⟩,
        ⟨x1, y1, w1, h1⟩, ⟨x2, y2, w2, h2⟩, true, ti, 0, 0, ⟨0, 0⟩, ⟨0, 0⟩⟩
    else
      match getSegmentIntersectionIndices x y w h 0 0 dx dy (-numberMax) 1 with
      | .error e => .error e
      | .ok (ti1, _, nx, ny, _, _) =>
        .ok ⟨⟨dx, dy⟩, ⟨nx, ny⟩, ⟨x1 + dx * ti1, y1 + dy * ti1⟩,
          ⟨x1, y1, w1, h1⟩, ⟨x2, y2, w2, h2⟩, true, ti, 0, 0, ⟨0, 0⟩, ⟨0, 0⟩⟩
  else
    match getSegmentIntersectionIndices x y w h 0 0 dx dy (-numberMax) numberMax with
    | .error e => .error e
    | .ok (ti1, ti2, nx1, ny1, _, _) =>
      if ti0 < 1 ∧ |ti1 - ti2| ≥ deltaError ∧
          (ti1 + deltaError > 0 ∨ (ti1 = 0 ∧ ti2 > 0)) then
        .ok ⟨⟨dx, dy⟩, ⟨nx1, ny1⟩, ⟨x1 + dx * ti1, y1 + dy * ti1⟩,
          ⟨x1, y1, w1, h1⟩, ⟨x2, y2, w2, h2⟩, false, ti1, 0, 0, ⟨0, 0⟩, ⟨0, 0⟩⟩
      else
        .ok ⟨⟨dx, dy⟩, ⟨0, 0⟩, ⟨x1 + dx * ti0, y1 + dy * ti0⟩,
          ⟨x1, y1, w1, h1⟩, ⟨x2, y2, w2, h2⟩, false, ti0, 0, 0, ⟨0, 0⟩, ⟨0, 0⟩⟩

end Rect

namespace Grid

/-- `Grid::toWorld`. -/
def toWorld (cellSize cx cy : ℚ) : ℚ × ℚ :=
  ((cx - 1) * cellSize, (cy - 1) * cellSize)

/-- `Grid::toCell`.  The source computes
`static_cast<Number>(x / cellSize) + 1`; since `Number` is `double`, the
cast is the identity and no flooring happens. -/
def toCell (cellSize x y : ℚ) : ℚ × ℚ :=
  (x / cellSize + 1, y / cellSize + 1)

end Grid

/-- Truncation of a `double` toward zero, the behaviour of
`static_cast<Index>` on an in-range value. -/
def truncQ (q : ℚ) : ℤ :=
  if 0 ≤ q then ⌊q⌋ else ⌈q⌉

/-- `Cell` from `bump.h`. -/
structure Cell where
  itemCount : ℚ := 0
  x : ℚ := 0
  y : ℚ := 0
  items : List Item := []
deriving DecidableEq

/-- The `World` state touched by `addItemToCell`: the cell table and the
non-empty-cell index (keyed by cell position `(iy, ix)`). -/
structure World where
  cellSize : ℚ := 64
  rows : List (List Cell) := []
  nonEmptyCells : List (ℤ × ℤ) := []

/-- The snapshot's `World::project`: a stub returning no collisions. -/
def World.project (_item : Item) (_x _y _w _h _goalX _goalY : ℚ)
    (_filter : Filter) : List Collision × ℕ :=
  ([], 0)

/-- `World::addItemToCell`.  `rows` is resized (padding with
default-constructed cells) so that `rows[iy][ix]` exists, and the cell is
registered in `nonEmptyCells`; the item is never appended to
`cell.items`. -/
def World.addItemToCell (wld : World) (_item : Item) (cx cy : ℚ) : World :=
  let ix := (truncQ cx).toNat
  let iy := (truncQ cy).toNat
  let rows1 :=
    if wld.rows.length < iy + 1 then
      wld.rows ++ List.replicate (iy + 1 - wld.rows.length) []
    else wld.rows
  let row := rows1.getD iy []
  let row1 :=
    if row.length < ix + 1 then
      row ++ List.replicate (ix + 1 - row.length) ({ } : Cell)
    else row
  let rows2 := rows1.set iy row1
  { wld with
    rows := rows2
    nonEmptyCells :=
      if ((iy : ℤ), (ix : ℤ)) ∈ wld.nonEmptyCells then wld.nonEmptyCells
      else ((iy : ℤ), (ix : ℤ)) :: wld.nonEmptyCells }

namespace Responses

/-- `Responses::touch`. -/
def touch (_project : ProjectFn) (col : Collision) (_x _y _w _h _goalX _goalY : ℚ)
    (_filter : Filter) : Response :=
  (col.touch.x, col.touch.y, [], 0)

/-- `Responses::cross`.  Note that the recursive projection starts from the
`(x, y)` passed to the response, not from the touch point. -/
def cross (project : ProjectFn) (col : Collision) (x y w h goalX goalY : ℚ)
    (filter : Filter) : Response :=
  let r := project col.item x y w h goalX goalY filter
  (goalX, goalY, r.1, r.2)

/-- `Responses::slide`.  Returns the updated collision (the source writes
`col.slide`) together with the `Response` value. -/
def slide (project : ProjectFn) (col : Collision) (_x _y w h goalX goalY : ℚ)
    (filter : Filter) : Collision × Response :=
  let touch := col.touch
  let move := col.move
  let s :=
    if move.x ≠ 0 ∨ move.y ≠ 0 then
      if col.normal.x = 0 then (goalX, touch.y) else (touch.x, goalY)
    else (touch.x, touch.y)
  let col' := { col with slide := ⟨s.1, s.2⟩ }
  let r := project col.item touch.x touch.y w h s.1 s.2 filter
  (col', (s.1, s.2, r.1, r.2))

/-- `Responses::bounce`.  Returns the updated collision (the source writes
`col.bounce`) together with the `Response` value. -/
def bounce (project : ProjectFn) (col : Collision) (_x _y w h goalX goalY : ℚ)
    (filter : Filter) : Collision × Response :=
  let touch := col.touch
  let move := col.move
  let b :=
    if move.x ≠ 0 ∨ move.y ≠ 0 then
      let bn := (goalX - touch.x, goalY - touch.y)
      let bn2 := if col.normal.x = 0 then (bn.1, -bn.2) else (-bn.1, bn.2)
      (touch.x + bn2.1, touch.y + bn2.2)
    else (touch.x, touch.y)
  let col' := { col with bounce := ⟨b.1, b.2⟩ }
  let r := project col.item touch.x touch.y w h b.1 b.2 filter
  (col', (b.1, b.2, r.1, r.2))

end Responses

/-- Application of `Rect::containsPoint` at the origin to a packed
rectangle, as `detectCollision` does with the Minkowski difference. -/
def containsOrigin (d : ℚ × ℚ × ℚ × ℚ) : Bool :=
  Rect.containsPoint d.1 d.2.1 d.2.2.1 d.2.2.2 0 0

/-- Membership of a point in a closed rectangle (the literal reading of a
point not lying "strictly outside" the rectangle). -/
def pointInClosedRect (x y w h px py : ℚ) : Prop :=
  x ≤ px ∧ px ≤ x + w ∧ y ≤ py ∧ py ≤ y + h

/-- A projection probe that records (in the returned count) whether it was
invoked with start x-coordinate 5; used to observe which start position a
response passes to `World::project`. -/
def probeProject : ProjectFn :=
  fun _ px _ _ _ _ _ _ => ([], if px = 5 then 1 else 0)

/-- A collision whose touch point (5, 5) differs from the current
position (1, 1) passed to the response. -/
def probeCollision : Collision :=
  ⟨⟨1, 1⟩, ⟨0, 0⟩, ⟨5, 5⟩, ⟨0, 0, 1, 1⟩, ⟨2, 2, 1, 1⟩, false, 0, 3, 4, ⟨0, 0⟩, ⟨0, 0⟩⟩

/-- A filter admitting everything. -/
def trueFilter : Filter := fun _ _ => true

/-- The collision produced by
`detectCollision((0,0,10,10), (20,0,10,10), goal = (30,0))`. -/
def slideExampleCol : Collision :=
  ⟨⟨30, 0⟩, ⟨-1, 0⟩, ⟨10, 0⟩, ⟨0, 0, 10, 10⟩, ⟨20, 0, 10, 10⟩, false, 1/3, 0, 0, ⟨0, 0⟩, ⟨0, 0⟩⟩

/-! ## Claim theorems -/

/-- **C1** (code bug).  `Rect::detectCollision` does not catch the
computation error of `getSegmentIntersectionIndices`: for the disjoint
pair `(0,0,1,1)`, `(10,10,1,1)` with zero motion (goal `(0,0)`), the
error propagates out of `detectCollision` instead of a normal return
with `overlaps = false`. -/
theorem C1_detectCollision_error_escapes :
    Rect.detectCollision 0 0 1 1 10 10 1 1 0 0 = .error () ∧
    Rect.isIntersecting 0 0 1 1 10 10 1 1 = false := by
  norm_num [Rect.detectCollision, Rect.getDiff, Rect.containsPoint,
    Rect.getSegmentIntersectionIndices, Rect.sideStep, deltaError,
    Rect.isIntersecting, Except.bind]

/-- **C2** (code bug).  `Grid::toCell(64, 32, 0)` evaluates to
`(1.5, 1)`: the `static_cast<Number>` in the source is an identity cast,
so the claimed/intended `floor(x / cellSize) + 1` (which is `1` here) is
not computed. -/
theorem C2_toCell_no_floor :
    Grid.toCell 64 32 0 = (3/2, 1) ∧
    (Grid.toCell 64 32 0).1 ≠ (⌊(32 : ℚ) / 64⌋ : ℚ) + 1 := by
  constructor
  · norm_num [Grid.toCell]
  · have h : ⌊(32 : ℚ) / 64⌋ = 0 := by
      rw [Int.floor_eq_zero_iff]
      constructor <;> norm_num
    rw [h]
    norm_num [Grid.toCell]

/-- **C3 counterexample.**  `Responses::cross` does not recurse into
`World::project` from the collision's touch point: with a projection
probe that reports whether it was started at x = 5 and a collision whose
touch point is `(5, 5)`, calling `cross` with current position `(1, 1)`
yields a different result from the claimed
`project(item, touch, ..., goal, filter)`. -/
theorem C3_cross_counterexample :
    Responses.cross probeProject probeCollision 1 1 10 10 30 40 trueFilter ≠
      (30, 40,
        (probeProject probeCollision.item probeCollision.touch.x
          probeCollision.touch.y 10 10 30 40 trueFilter).1,
        (probeProject probeCollision.item probeCollision.touch.x
          probeCollision.touch.y 10 10 30 40 trueFilter).2) := by
  norm_num [Responses.cross, probeProject, probeCollision, trueFilter]

/-- **C3 (amended).**  `Responses::cross` returns the original goal as
the resolved position and obtains its further-collision list by recursing
into `World::project` from the current position `(x, y)` passed to the
response (not from the touch point) toward the original goal under the
same filter. -/
theorem C3_cross_amended (project : ProjectFn) (col : Collision)
    (x y w h goalX goalY : ℚ) (filter : Filter) :
    Responses.cross project col x y w h goalX goalY filter =
      (goalX, goalY, (project col.item x y w h goalX goalY filter).1,
        (project col.item x y w h goalX goalY filter).2) := rfl

/-- **C4** (code bug).  `World::addItemToCell` registers the target cell
in the non-empty index but never appends the item to the cell's item
set: after inserting item `7` into cell `(1, 1)` of a fresh world, the
cell is indexed as non-empty while its item set is empty, violating the
claimed invariant. -/
theorem C4_addItemToCell_item_not_added :
    ((1, 1) ∈ (World.addItemToCell { } 7 1 1).nonEmptyCells) ∧
    (((World.addItemToCell { } 7 1 1).rows.getD 1 []).getD 1 { }).items = [] := by
  have ht : truncQ 1 = 1 := by
    unfold truncQ
    norm_num
  constructor <;>
    simp [World.addItemToCell, ht, List.getD, List.replicate]

/-- **C5** (confirmed).  For a collision with nonzero motion,
`Responses::slide` keeps the goal coordinate on the axis where the
contact normal vanishes and locks the touch coordinate on the other
axis, returns that adjusted goal as the resolved position, and recurses
into `World::project` from the touch point toward the adjusted goal; in
the concrete scenario of mover `(0,0,10,10)`, obstacle `(20,0,10,10)`,
goal `(30,0)`, the resolution is `x = 10` (the touch x), `y = 0` (the
goal's y), with no further collisions. -/
theorem C5_slide :
    (∀ (project : ProjectFn) (col : Collision) (x y w h goalX goalY : ℚ)
      (filter : Filter), col.move.x ≠ 0 ∨ col.move.y ≠ 0 →
      (col.normal.x = 0 →
        (Responses.slide project col x y w h goalX goalY filter).2 =
          (goalX, col.touch.y,
            (project col.item col.touch.x col.touch.y w h goalX col.touch.y filter).1,
            (project col.item col.touch.x col.touch.y w h goalX col.touch.y filter).2)) ∧
      (col.normal.x ≠ 0 →
        (Responses.slide project col x y w h goalX goalY filter).2 =
          (col.touch.x, goalY,
            (project col.item col.touch.x col.touch.y w h col.touch.x goalY filter).1,
            (project col.item col.touch.x col.touch.y w h col.touch.x goalY filter).2))) ∧
    (Rect.detectCollision 0 0 10 10 20 0 10 10 30 0 = .ok slideExampleCol ∧
      (Responses.slide World.project slideExampleCol 0 0 10 10 30 0 trueFilter).2 =
        (10, 0, [], 0)) := by
  refine ⟨fun project col x y w h goalX goalY filter hmove => ?_, ?_, ?_⟩
  · constructor <;> intro hn <;>
      simp [Responses.slide, if_pos hmove, hn]
  · norm_num [Rect.detectCollision, Rect.getDiff, Rect.containsPoint,
      Rect.getSegmentIntersectionIndices, Rect.sideStep, deltaError, numberMax,
      Rect.getNearestCorner, Aux.nearest, Except.bind, abs_of_nonneg,
      abs_of_nonpos, slideExampleCol]
  · norm_num [Responses.slide, slideExampleCol, World.project]

/-- **C5 witness.** -/
theorem C5_slide_witness :
    (Responses.slide World.project slideExampleCol 0 0 10 10 30 0 trueFilter).2 =
      (slideExampleCol.touch.x, 0,
        (World.project slideExampleCol.item slideExampleCol.touch.x
          slideExampleCol.touch.y 10 10 slideExampleCol.touch.x 0 trueFilter).1,
        (World.project slideExampleCol.item slideExampleCol.touch.x
          slideExampleCol.touch.y 10 10 slideExampleCol.touch.x 0 trueFilter).2) :=
  (C5_slide.1 World.project slideExampleCol 0 0 10 10 30 0 trueFilter
    (by norm_num [slideExampleCol])).2 (by norm_num [slideExampleCol])

/-- Characterisation of `Aux::nearest`: it returns one of the two
candidates, never a farther one, and resolves equidistant ties to the
second candidate. -/
theorem nearest_spec (v a b : ℚ) :
    (Aux.nearest v a b = a ∨ Aux.nearest v a b = b) ∧
    |Aux.nearest v a b - v| ≤ |a - v| ∧ |Aux.nearest v a b - v| ≤ |b - v| ∧
    (|a - v| = |b - v| → Aux.nearest v a b = b) := by
  unfold Aux.nearest
  split_ifs with hlt
  · exact ⟨Or.inl rfl, le_refl _, le_of_lt hlt, fun he => absurd he (ne_of_lt hlt)⟩
  · exact ⟨Or.inr rfl, not_lt.mp hlt, le_refl _, fun _ => rfl⟩

/-- **C9 counterexample.**  `getNearestCorner` breaks per-axis
equidistant ties toward the *second* candidate: for the rectangle
`(0,0,10,10)` and the centre point `(5,5)` it returns `(10, 10)`, not
the claimed first candidates `(0, 0)`. -/
theorem C9_nearest_corner_tie_counterexample :
    Rect.getNearestCorner 0 0 10 10 5 5 = (10, 10) ∧
    Rect.getNearestCorner 0 0 10 10 5 5 ≠ (0, 0) := by
  norm_num [Rect.getNearestCorner, Aux.nearest]

/-- **C9 (amended).**  `getNearestCorner` returns, independently per
axis, the nearer of `x` versus `x + w` to `px` and the nearer of `y`
versus `y + h` to `py`, with equidistant ties broken toward the *second*
candidate (`x + w`, resp. `y + h`). -/
theorem C9_nearest_corner_amended (x y w h px py : ℚ) :
    ((Rect.getNearestCorner x y w h px py).1 = x ∨
      (Rect.getNearestCorner x y w h px py).1 = x + w) ∧
    |(Rect.getNearestCorner x y w h px py).1 - px| ≤ |x - px| ∧
    |(Rect.getNearestCorner x y w h px py).1 - px| ≤ |x + w - px| ∧
    (|x - px| = |x + w - px| → (Rect.getNearestCorner x y w h px py).1 = x + w) ∧
    ((Rect.getNearestCorner x y w h px py).2 = y ∨
      (Rect.getNearestCorner x y w h px py).2 = y + h) ∧
    |(Rect.getNearestCorner x y w h px py).2 - py| ≤ |y - py| ∧
    |(Rect.getNearestCorner x y w h px py).2 - py| ≤ |y + h - py| ∧
    (|y - py| = |y + h - py| → (Rect.getNearestCorner x y w h px py).2 = y + h) := by
  obtain ⟨h1, h2, h3, h4⟩ := nearest_spec px x (x + w)
  obtain ⟨g1, g2, g3, g4⟩ := nearest_spec py y (y + h)
  exact ⟨h1, h2, h3, h4, g1, g2, g3, g4⟩

/-- **C9 witness.** -/
theorem C9_nearest_corner_amended_witness :
    (Rect.getNearestCorner 0 0 10 10 5 7).1 = 0 + 10 :=
  (C9_nearest_corner_amended 0 0 10 10 5 7).2.2.2.1 (by norm_num)

/-- **C8 counterexample.**  For the degenerate rectangle `A = (5,5,0,0)`
inside `B = (0,0,10,10)`, `containsPoint` at the origin of
`getDiff(A,B)` holds, yet the two rectangles' x-projections overlap in
length `0`, not by more than the epsilon: the claimed equivalence fails
for rectangles with a dimension below the epsilon. -/
theorem C8_diff_origin_counterexample :
    containsOrigin (Rect.getDiff 5 5 0 0 0 0 10 10) = true ∧
    ¬ (deltaError < min (5 + 0 : ℚ) (0 + 10) - max (5 : ℚ) 0) := by
  norm_num [containsOrigin, Rect.getDiff, Rect.containsPoint, deltaError]

/-- **C8 (amended).**  For rectangles whose widths and heights all
exceed the epsilon `1e-10`, `containsPoint` at the origin of
`getDiff(A, B)` holds iff the two rectangles' projections overlap by
more than the epsilon on both axes (boundary touches not counted). -/
theorem C8_diff_origin_iff_overlap (x1 y1 w1 h1 x2 y2 w2 h2 : ℚ)
    (hw1 : deltaError < w1) (hh1 : deltaError < h1)
    (hw2 : deltaError < w2) (hh2 : deltaError < h2) :
    containsOrigin (Rect.getDiff x1 y1 w1 h1 x2 y2 w2 h2) = true ↔
      (deltaError < min (x1 + w1) (x2 + w2) - max x1 x2 ∧
       deltaError < min (y1 + h1) (y2 + h2) - max y1 y2) := by
  have key : ∀ e p q r s : ℚ,
      e < min p q - max r s ↔ (e < p - r ∧ e < p - s ∧ e < q - r ∧ e < q - s) := by
    intro e p q r s
    rw [lt_sub_iff_add_lt, lt_min_iff]
    constructor
    · rintro ⟨h1, h2⟩
      rw [add_comm, ← lt_sub_iff_add_lt, max_lt_iff] at h1 h2
      exact ⟨by linarith [h1.1], by linarith [h1.2], by linarith [h2.1], by linarith [h2.2]⟩
    · rintro ⟨h1, h2, h3, h4⟩
      constructor <;> rw [add_comm, ← lt_sub_iff_add_lt, max_lt_iff] <;>
        exact ⟨by linarith, by linarith⟩
  simp only [containsOrigin, Rect.getDiff, Rect.containsPoint,
    Bool.and_eq_true, decide_eq_true_eq]
  rw [key, key]
  constructor
  · rintro ⟨⟨⟨ha, hb⟩, hc⟩, hd⟩
    refine ⟨⟨?_, ?_, ?_, ?_⟩, ?_, ?_, ?_, ?_⟩ <;> linarith
  · rintro ⟨⟨ha, hb, hc, hd⟩, he, hf, hg, hh⟩
    refine ⟨⟨⟨?_, ?_⟩, ?_⟩, ?_⟩ <;> linarith

/-- **C8 witness.** -/
theorem C8_diff_origin_iff_overlap_witness :
    containsOrigin (Rect.getDiff 0 0 10 10 5 5 10 10) = true ↔
      (deltaError < min (0 + 10 : ℚ) (5 + 10) - max (0 : ℚ) 5 ∧
       deltaError < min (0 + 10 : ℚ) (5 + 10) - max (0 : ℚ) 5) :=
  C8_diff_origin_iff_overlap 0 0 10 10 5 5 10 10 (by norm_num [deltaError])
    (by norm_num [deltaError]) (by norm_num [deltaError]) (by norm_num [deltaError])

/-- **C6 counterexample.**  For the mover `(5,4,2,2)` overlapping
`(0,0,10,10)` with zero motion, the shorter escape axis is x and the
nearest-corner push lands the touch point at `(10, 4)`, which lies on
the boundary of the other rectangle — inside it in the closed sense —
so the touch point does not lie strictly outside the other rectangle. -/
theorem C6_touch_not_strictly_outside :
    Rect.detectCollision 5 4 2 2 0 0 10 10 5 4 =
      .ok ⟨⟨0, 0⟩, ⟨1, 0⟩, ⟨10, 4⟩, ⟨5, 4, 2, 2⟩, ⟨0, 0, 10, 10⟩, true, -4, 0, 0,
        ⟨0, 0⟩, ⟨0, 0⟩⟩ ∧
    pointInClosedRect 0 0 10 10 10 4 := by
  constructor
  · norm_num [Rect.detectCollision, Rect.getDiff, Rect.containsPoint, deltaError,
      Rect.getNearestCorner, Aux.nearest, Aux.sign]
  · norm_num [pointInClosedRect]

/-- **C6 (amended).**  For rectangles (with non-negative mover
dimensions) overlapping beyond the epsilon margin and zero motion,
`detectCollision` returns `overlaps = true`, `ti` equal to minus the
product of the per-axis overlap depths `min(w1,|px|) * min(h1,|py|)`
with `(px, py)` the nearest corner of the Minkowski difference to the
origin, and a touch point that differs from the mover's origin only
along the chosen escape axis (the shorter one, ties resolved to the
vertical axis) and is not contained in the other rectangle
(`containsPoint` is false there; the touch point may lie exactly on the
boundary). -/
theorem C6_overlap_zero_motion (x1 y1 w1 h1 x2 y2 w2 h2 : ℚ) (pc : ℚ × ℚ)
    (hw1 : 0 ≤ w1) (hh1 : 0 ≤ h1)
    (hov : containsOrigin (Rect.getDiff x1 y1 w1 h1 x2 y2 w2 h2) = true)
    (hpc : pc = Rect.getNearestCorner (x2 - x1 - w1) (y2 - y1 - h1)
      (w1 + w2) (h1 + h2) 0 0) :
    ∃ c : Collision,
      Rect.detectCollision x1 y1 w1 h1 x2 y2 w2 h2 x1 y1 = .ok c ∧
      c.overlaps = true ∧
      c.ti = -(min w1 |pc.1|) * min h1 |pc.2| ∧
      (if |pc.1| < |pc.2| then c.touch = ⟨x1 + pc.1, y1⟩
        else c.touch = ⟨x1, y1 + pc.2⟩) ∧
      Rect.containsPoint x2 y2 w2 h2 c.touch.x c.touch.y = false := by
  have heps : (0 : ℚ) < deltaError := by norm_num [deltaError]
  have hov' : Rect.containsPoint (x2 - x1 - w1) (y2 - y1 - h1)
      (w1 + w2) (h1 + h2) 0 0 = true := hov
  have hx1 : pc.1 = x2 - x1 - w1 ∨ pc.1 = x2 - x1 - w1 + (w1 + w2) := by
    rw [hpc]
    exact (nearest_spec 0 (x2 - x1 - w1) (x2 - x1 - w1 + (w1 + w2))).1
  have hy1 : pc.2 = y2 - y1 - h1 ∨ pc.2 = y2 - y1 - h1 + (h1 + h2) := by
    rw [hpc]
    exact (nearest_spec 0 (y2 - y1 - h1) (y2 - y1 - h1 + (h1 + h2))).1
  simp only [Rect.detectCollision, Rect.getDiff, sub_self, hov', if_true,
    and_self, ← hpc]
  by_cases habs : |pc.1| < |pc.2|
  · refine ⟨_, by rw [if_pos habs], rfl, rfl, ?_, ?_⟩
    · rw [if_pos habs, if_pos habs]
      simp
    · rw [if_pos habs]
      rw [Bool.eq_false_iff]
      intro hcp
      simp only [Rect.containsPoint, Bool.and_eq_true, decide_eq_true_eq] at hcp
      obtain ⟨⟨⟨hA, hB⟩, hC⟩, hD⟩ := hcp
      rcases hx1 with he | he <;> rw [he] at hA hC <;> linarith
  · refine ⟨_, by rw [if_neg habs], rfl, rfl, ?_, ?_⟩
    · rw [if_neg habs, if_neg habs]
      simp
    · rw [if_neg habs]
      rw [Bool.eq_false_iff]
      intro hcp
      simp only [Rect.containsPoint, Bool.and_eq_true, decide_eq_true_eq] at hcp
      obtain ⟨⟨⟨hA, hB⟩, hC⟩, hD⟩ := hcp
      rcases hy1 with he | he <;> rw [he] at hB hD <;> linarith

/-- **C6 witness.** -/
theorem C6_overlap_zero_motion_witness :
    ∃ c : Collision,
      Rect.detectCollision 1 4 2 2 0 0 10 10 1 4 = .ok c ∧
      c.overlaps = true ∧
      c.ti = -(min 2 |(-3 : ℚ)|) * min 2 |(6 : ℚ)| ∧
      (if |(-3 : ℚ)| < |(6 : ℚ)| then c.touch = ⟨1 + -3, 4⟩
        else c.touch = ⟨1, 4 + 6⟩) ∧
      Rect.containsPoint 0 0 10 10 c.touch.x c.touch.y = false :=
  C6_overlap_zero_motion 1 4 2 2 0 0 10 10 ((-3 : ℚ), (6 : ℚ))
    (by norm_num) (by norm_num)
    (by norm_num [containsOrigin, Rect.getDiff, Rect.containsPoint, deltaError])
    (by norm_num [Rect.getNearestCorner, Aux.nearest])

/-- A successful `sideStep` keeps the parameter interval inside the
enclosing bounds: the entry bound only rises (never above the exit
bound), the exit bound only falls. -/
theorem sideStep_ok_bounds {nx ny p q lo hi : ℚ} {s s' : Rect.ClipState}
    (hlo : lo ≤ s.ti1) (hmid : s.ti1 ≤ s.ti2) (hhi : s.ti2 ≤ hi)
    (hok : Rect.sideStep nx ny p q s = .ok s') :
    lo ≤ s'.ti1 ∧ s'.ti1 ≤ s'.ti2 ∧ s'.ti2 ≤ hi := by
  unfold Rect.sideStep at hok
  split_ifs at hok <;>
    first
      | exact Except.noConfusion hok
      | (injection hok with h; subst h;
          refine ⟨?_, ?_, ?_⟩ <;> linarith)

/-- A side with `p = 0` and `q > 0` leaves the clip state unchanged. -/
theorem sideStep_p0_pos {nx ny q : ℚ} (s : Rect.ClipState) (hq : 0 < q) :
    Rect.sideStep nx ny 0 q s = .ok s := by
  unfold Rect.sideStep
  rw [if_pos rfl, if_neg (not_le.mpr hq)]

/-- A side with `p = 0` and `q ≤ 0` (parallel and exterior) raises. -/
theorem sideStep_p0_err {nx ny q : ℚ} (s : Rect.ClipState) (hq : q ≤ 0) :
    Rect.sideStep nx ny 0 q s = .error () := by
  unfold Rect.sideStep
  rw [if_pos rfl, if_pos hq]

/-- An entry side (`p < 0`) whose ratio improves the entry bound updates
it and records the side's normal. -/
theorem sideStep_entry_update {nx ny p q : ℚ} (s : Rect.ClipState) (hp : p < 0)
    (h2 : q / p ≤ s.ti2) (h1 : s.ti1 < q / p) :
    Rect.sideStep nx ny p q s = .ok { s with ti1 := q / p, nx1 := nx, ny1 := ny } := by
  unfold Rect.sideStep
  rw [if_neg (ne_of_lt hp), if_pos hp, if_neg (not_lt.mpr h2), if_pos h1]

/-- An entry side whose ratio does not improve the entry bound leaves the
state unchanged. -/
theorem sideStep_entry_skip {nx ny p q : ℚ} (s : Rect.ClipState) (hp : p < 0)
    (h2 : q / p ≤ s.ti2) (h1 : q / p ≤ s.ti1) :
    Rect.sideStep nx ny p q s = .ok s := by
  unfold Rect.sideStep
  rw [if_neg (ne_of_lt hp), if_pos hp, if_neg (not_lt.mpr h2), if_neg (not_lt.mpr h1)]

/-- An exit side (`p > 0`) whose ratio improves the exit bound updates it
and records the side's normal. -/
theorem sideStep_exit_update {nx ny p q : ℚ} (s : Rect.ClipState) (hp : 0 < p)
    (h1 : s.ti1 ≤ q / p) (h2 : q / p < s.ti2) :
    Rect.sideStep nx ny p q s = .ok { s with ti2 := q / p, nx2 := nx, ny2 := ny } := by
  unfold Rect.sideStep
  rw [if_neg (ne_of_gt hp), if_neg (not_lt.mpr (le_of_lt hp)),
    if_neg (not_lt.mpr h1), if_pos h2]

/-- An exit side whose ratio does not improve the exit bound leaves the
state unchanged. -/
theorem sideStep_exit_skip {nx ny p q : ℚ} (s : Rect.ClipState) (hp : 0 < p)
    (h1 : s.ti1 ≤ q / p) (h2 : s.ti2 ≤ q / p) :
    Rect.sideStep nx ny p q s = .ok s := by
  unfold Rect.sideStep
  rw [if_neg (ne_of_gt hp), if_neg (not_lt.mpr (le_of_lt hp)),
    if_neg (not_lt.mpr h1), if_neg (not_lt.mpr h2)]

/-- An entry side whose ratio does not exceed the exit bound succeeds,
raising the entry bound to the max of the old bound and the ratio. -/
theorem sideStep_neg_ok (nx ny p q : ℚ) (s : Rect.ClipState) (hp : p < 0)
    (h2 : q / p ≤ s.ti2) :
    ∃ s', Rect.sideStep nx ny p q s = .ok s' ∧
      s'.ti1 = max s.ti1 (q / p) ∧ s'.ti2 = s.ti2 := by
  rcases lt_or_le s.ti1 (q / p) with h1 | h1
  · exact ⟨_, sideStep_entry_update s hp h2 h1,
      (max_eq_right (le_of_lt h1)).symm, rfl⟩
  · exact ⟨s, sideStep_entry_skip s hp h2 h1, (max_eq_left h1).symm, rfl⟩

/-- An exit side whose ratio is at least the entry bound succeeds,
lowering the exit bound to the min of the old bound and the ratio. -/
theorem sideStep_pos_ok (nx ny p q : ℚ) (s : Rect.ClipState) (hp : 0 < p)
    (h1 : s.ti1 ≤ q / p) :
    ∃ s', Rect.sideStep nx ny p q s = .ok s' ∧
      s'.ti1 = s.ti1 ∧ s'.ti2 = min s.ti2 (q / p) := by
  rcases lt_or_le (q / p) s.ti2 with h2 | h2
  · exact ⟨_, sideStep_exit_update s hp h1 h2, rfl,
      (min_eq_right (le_of_lt h2)).symm⟩
  · exact ⟨s, sideStep_exit_skip s hp h1 h2, rfl, (min_eq_left h2).symm⟩

/-- A segment parallel to a side of the rectangle and starting on or
outside that side makes `getSegmentIntersectionIndices` raise the
computation error, for any seed bounds. -/
theorem clip_parallel_exterior (x y w h x1 y1 x2 y2 ti1 ti2 : ℚ)
    (hex : (x2 - x1 = 0 ∧ (x1 - x ≤ 0 ∨ x + w - x1 ≤ 0)) ∨
           (y2 - y1 = 0 ∧ (y1 - y ≤ 0 ∨ y + h - y1 ≤ 0))) :
    Rect.getSegmentIntersectionIndices x y w h x1 y1 x2 y2 ti1 ti2 = .error () := by
  simp only [Rect.getSegmentIntersectionIndices]
  rcases hex with ⟨hd, hq | hq⟩ | ⟨hd, hq | hq⟩
  · rw [hd, neg_zero, sideStep_p0_err _ hq]
    rfl
  · rw [hd, neg_zero]
    rcases le_or_lt (x1 - x) 0 with hq1 | hq1
    · rw [sideStep_p0_err _ hq1]
      rfl
    · rw [sideStep_p0_pos _ hq1]
      simp only [Except.bind]
      rw [sideStep_p0_err _ hq]
  · cases e1 : Rect.sideStep (-1) 0 (-(x2 - x1)) (x1 - x) ⟨ti1, ti2, 0, 0, 0, 0⟩ with
    | error u => cases u; rfl
    | ok s1 =>
      simp only [Except.bind]
      cases e2 : Rect.sideStep 1 0 (x2 - x1) (x + w - x1) s1 with
      | error u => cases u; rfl
      | ok s2 =>
        simp only [Except.bind]
        rw [hd, neg_zero, sideStep_p0_err _ hq]
  · cases e1 : Rect.sideStep (-1) 0 (-(x2 - x1)) (x1 - x) ⟨ti1, ti2, 0, 0, 0, 0⟩ with
    | error u => cases u; rfl
    | ok s1 =>
      simp only [Except.bind]
      cases e2 : Rect.sideStep 1 0 (x2 - x1) (x + w - x1) s1 with
      | error u => cases u; rfl
      | ok s2 =>
        simp only [Except.bind]
        rw [hd]
        rcases le_or_lt (y1 - y) 0 with hq3 | hq3
        · rw [neg_zero, sideStep_p0_err _ hq3]
        · rw [neg_zero, sideStep_p0_pos _ hq3]
          simp only [Except.bind]
          rw [sideStep_p0_err _ hq]

/-- A segment crossing the left then the right side (`dx > 0`), staying
inside the rectangle's y-band at both crossings, clips to exactly those
two parameters with the left/right outward normals, when seeded with
`(-numberMax, numberMax)`. -/
theorem clip_cross_left_right (x y w h x1 y1 x2 y2 tl tr : ℚ)
    (hdx : 0 < x2 - x1)
    (htl : tl = (x - x1) / (x2 - x1)) (htr : tr = (x + w - x1) / (x2 - x1))
    (h0 : 0 ≤ tl) (h1 : tr ≤ 1) (hlr : tl ≤ tr)
    (hb1 : y ≤ y1 + tl * (y2 - y1)) (hb2 : y1 + tl * (y2 - y1) ≤ y + h)
    (hb3 : y ≤ y1 + tr * (y2 - y1)) (hb4 : y1 + tr * (y2 - y1) ≤ y + h)
    (hdy0 : y2 - y1 = 0 → y < y1 ∧ y1 < y + h) :
    Rect.getSegmentIntersectionIndices x y w h x1 y1 x2 y2 (-numberMax) numberMax =
      .ok (tl, tr, -1, 0, 1, 0) := by
  have hnm : (1 : ℚ) < numberMax := by norm_num [numberMax]
  have hrw1 : (x1 - x) / (-(x2 - x1)) = tl := by
    rw [div_neg, ← neg_div, neg_sub]
    exact htl.symm
  have hrw2 : (x + w - x1) / (x2 - x1) = tr := htr.symm
  have hrw3 : (y1 - y) / (-(y2 - y1)) = (y - y1) / (y2 - y1) := by
    rw [div_neg, ← neg_div, neg_sub]
  simp only [Rect.getSegmentIntersectionIndices]
  rw [sideStep_entry_update ⟨-numberMax, numberMax, 0, 0, 0, 0⟩ (neg_lt_zero.mpr hdx)
    (by rw [hrw1]; show tl ≤ numberMax; linarith)
    (by rw [hrw1]; show -numberMax < tl; linarith), hrw1]
  simp only [Except.bind]
  rw [sideStep_exit_update _ hdx
    (by rw [hrw2]; show tl ≤ tr; exact hlr)
    (by rw [hrw2]; show tr < numberMax; linarith), hrw2]
  simp only [Except.bind]
  rcases lt_trichotomy (y2 - y1) 0 with hdy | hdy | hdy
  · rw [sideStep_exit_skip _ (neg_pos.mpr hdy)
      (by rw [hrw3]; show tl ≤ (y - y1) / (y2 - y1)
          rw [le_div_iff_of_neg hdy]; linarith)
      (by rw [hrw3]; show tr ≤ (y - y1) / (y2 - y1)
          rw [le_div_iff_of_neg hdy]; linarith)]
    simp only [Except.bind]
    rw [sideStep_entry_skip _ hdy
      (by show (y + h - y1) / (y2 - y1) ≤ tr
          rw [div_le_iff_of_neg hdy]; linarith)
      (by show (y + h - y1) / (y2 - y1) ≤ tl
          rw [div_le_iff_of_neg hdy]; linarith)]
  · obtain ⟨hy1, hy2⟩ := hdy0 hdy
    rw [hdy, neg_zero, sideStep_p0_pos _ (by linarith)]
    simp only [Except.bind]
    rw [sideStep_p0_pos _ (by linarith)]
  · rw [sideStep_entry_skip _ (neg_lt_zero.mpr hdy)
      (by rw [hrw3]; show (y - y1) / (y2 - y1) ≤ tr
          rw [div_le_iff₀ hdy]; linarith)
      (by rw [hrw3]; show (y - y1) / (y2 - y1) ≤ tl
          rw [div_le_iff₀ hdy]; linarith)]
    simp only [Except.bind]
    rw [sideStep_exit_skip _ hdy
      (by show tl ≤ (y + h - y1) / (y2 - y1)
          rw [le_div_iff₀ hdy]; linarith)
      (by show tr ≤ (y + h - y1) / (y2 - y1)
          rw [le_div_iff₀ hdy]; linarith)]

/-- A segment crossing the right then the left side (`dx < 0`), staying
inside the rectangle's y-band at both crossings, clips to exactly those
two parameters with the right/left outward normals, when seeded with
`(-numberMax, numberMax)`. -/
theorem clip_cross_right_left (x y w h x1 y1 x2 y2 te tx : ℚ)
    (hdx : x2 - x1 < 0)
    (hte : te = (x + w - x1) / (x2 - x1)) (htx : tx = (x - x1) / (x2 - x1))
    (h0 : 0 ≤ te) (h1 : tx ≤ 1) (hlr : te ≤ tx)
    (hb1 : y ≤ y1 + te * (y2 - y1)) (hb2 : y1 + te * (y2 - y1) ≤ y + h)
    (hb3 : y ≤ y1 + tx * (y2 - y1)) (hb4 : y1 + tx * (y2 - y1) ≤ y + h)
    (hdy0 : y2 - y1 = 0 → y < y1 ∧ y1 < y + h) :
    Rect.getSegmentIntersectionIndices x y w h x1 y1 x2 y2 (-numberMax) numberMax =
      .ok (te, tx, 1, 0, -1, 0) := by
  have hnm : (1 : ℚ) < numberMax := by norm_num [numberMax]
  have hrw1 : (x1 - x) / (-(x2 - x1)) = tx := by
    rw [div_neg, ← neg_div, neg_sub]
    exact htx.symm
  have hrw2 : (x + w - x1) / (x2 - x1) = te := hte.symm
  have hrw3 : (y1 - y) / (-(y2 - y1)) = (y - y1) / (y2 - y1) := by
    rw [div_neg, ← neg_div, neg_sub]
  simp only [Rect.getSegmentIntersectionIndices]
  rw [sideStep_exit_update ⟨-numberMax, numberMax, 0, 0, 0, 0⟩ (neg_pos.mpr hdx)
    (by rw [hrw1]; show -numberMax ≤ tx; linarith)
    (by rw [hrw1]; show tx < numberMax; linarith), hrw1]
  simp only [Except.bind]
  rw [sideStep_entry_update _ hdx
    (by rw [hrw2]; show te ≤ tx; exact hlr)
    (by rw [hrw2]; show -numberMax < te; linarith), hrw2]
  simp only [Except.bind]
  rcases lt_trichotomy (y2 - y1) 0 with hdy | hdy | hdy
  · rw [sideStep_exit_skip _ (neg_pos.mpr hdy)
      (by rw [hrw3]; show te ≤ (y - y1) / (y2 - y1)
          rw [le_div_iff_of_neg hdy]; linarith)
      (by rw [hrw3]; show tx ≤ (y - y1) / (y2 - y1)
          rw [le_div_iff_of_neg hdy]; linarith)]
    simp only [Except.bind]
    rw [sideStep_entry_skip _ hdy
      (by show (y + h - y1) / (y2 - y1) ≤ tx
          rw [div_le_iff_of_neg hdy]; linarith)
      (by show (y + h - y1) / (y2 - y1) ≤ te
          rw [div_le_iff_of_neg hdy]; linarith)]
  · obtain ⟨hy1, hy2⟩ := hdy0 hdy
    rw [hdy, neg_zero, sideStep_p0_pos _ (by linarith)]
    simp only [Except.bind]
    rw [sideStep_p0_pos _ (by linarith)]
  · rw [sideStep_entry_skip _ (neg_lt_zero.mpr hdy)
      (by rw [hrw3]; show (y - y1) / (y2 - y1) ≤ tx
          rw [div_le_iff₀ hdy]; linarith)
      (by rw [hrw3]; show (y - y1) / (y2 - y1) ≤ te
          rw [div_le_iff₀ hdy]; linarith)]
    simp only [Except.bind]
    rw [sideStep_exit_skip _ hdy
      (by show te ≤ (y + h - y1) / (y2 - y1)
          rw [le_div_iff₀ hdy]; linarith)
      (by show tx ≤ (y + h - y1) / (y2 - y1)
          rw [le_div_iff₀ hdy]; linarith)]

/-- The last two sides (top then bottom) of the clip loop, for a segment
with `dy > 0` entering through the top at `tt` and leaving through the
bottom at `tb`, given a state whose entry bound lies below `tt` and exit
bound above `tb`. -/
theorem clip_tb_tail (y y1 y2 h tt tb : ℚ) (s2 : Rect.ClipState)
    (hdy : 0 < y2 - y1)
    (htt : tt = (y - y1) / (y2 - y1)) (htb : tb = (y + h - y1) / (y2 - y1))
    (hlr : tt ≤ tb)
    (ha : s2.ti1 < tt) (hb : tb < s2.ti2) :
    ((Rect.sideStep 0 (-1) (-(y2 - y1)) (y1 - y) s2).bind fun s3 =>
      (Rect.sideStep 0 1 (y2 - y1) (y + h - y1) s3).bind fun s4 =>
        .ok (s4.ti1, s4.ti2, s4.nx1, s4.ny1, s4.nx2, s4.ny2)) =
      .ok (tt, tb, 0, -1, 0, 1) := by
  have hrw3 : (y1 - y) / (-(y2 - y1)) = tt := by
    rw [div_neg, ← neg_div, neg_sub]
    exact htt.symm
  have hrw4 : (y + h - y1) / (y2 - y1) = tb := htb.symm
  rw [sideStep_entry_update s2 (neg_lt_zero.mpr hdy)
    (by rw [hrw3]; show tt ≤ s2.ti2; linarith)
    (by rw [hrw3]; exact ha), hrw3]
  simp only [Except.bind]
  rw [sideStep_exit_update _ hdy
    (by rw [hrw4]; show tt ≤ tb; exact hlr)
    (by rw [hrw4]; show tb < s2.ti2; exact hb), hrw4]

/-- The last two sides of the clip loop, for a segment with `dy < 0`
entering through the bottom at `te` and leaving through the top at
`tx`. -/
theorem clip_bt_tail (y y1 y2 h te tx : ℚ) (s2 : Rect.ClipState)
    (hdy : y2 - y1 < 0)
    (hte : te = (y + h - y1) / (y2 - y1)) (htx : tx = (y - y1) / (y2 - y1))
    (hlr : te ≤ tx)
    (ha : s2.ti1 < te) (hb : tx < s2.ti2) :
    ((Rect.sideStep 0 (-1) (-(y2 - y1)) (y1 - y) s2).bind fun s3 =>
      (Rect.sideStep 0 1 (y2 - y1) (y + h - y1) s3).bind fun s4 =>
        .ok (s4.ti1, s4.ti2, s4.nx1, s4.ny1, s4.nx2, s4.ny2)) =
      .ok (te, tx, 0, 1, 0, -1) := by
  have hrw3 : (y1 - y) / (-(y2 - y1)) = tx := by
    rw [div_neg, ← neg_div, neg_sub]
    exact htx.symm
  have hrw4 : (y + h - y1) / (y2 - y1) = te := hte.symm
  rw [sideStep_exit_update s2 (neg_pos.mpr hdy)
    (by rw [hrw3]; show s2.ti1 ≤ tx; linarith)
    (by rw [hrw3]; exact hb), hrw3]
  simp only [Except.bind]
  rw [sideStep_entry_update _ hdy
    (by rw [hrw4]; show te ≤ tx; exact hlr)
    (by rw [hrw4]; show s2.ti1 < te; exact ha), hrw4]

/-- A segment crossing the top then the bottom side (`dy > 0`), staying
strictly inside the rectangle's x-band at both crossings, clips to
exactly those two parameters with the top/bottom outward normals, when
seeded with `(-numberMax, numberMax)`. -/
theorem clip_cross_top_bottom (x y w h x1 y1 x2 y2 tt tb : ℚ)
    (hdy : 0 < y2 - y1)
    (htt : tt = (y - y1) / (y2 - y1)) (htb : tb = (y + h - y1) / (y2 - y1))
    (h0 : 0 ≤ tt) (h1 : tb ≤ 1) (hlr : tt ≤ tb)
    (hb1 : x < x1 + tt * (x2 - x1)) (hb2 : x1 + tt * (x2 - x1) < x + w)
    (hb3 : x < x1 + tb * (x2 - x1)) (hb4 : x1 + tb * (x2 - x1) < x + w) :
    Rect.getSegmentIntersectionIndices x y w h x1 y1 x2 y2 (-numberMax) numberMax =
      .ok (tt, tb, 0, -1, 0, 1) := by
  have hnm : (1 : ℚ) < numberMax := by norm_num [numberMax]
  have hrw1 : (x1 - x) / (-(x2 - x1)) = (x - x1) / (x2 - x1) := by
    rw [div_neg, ← neg_div, neg_sub]
  simp only [Rect.getSegmentIntersectionIndices]
  rcases lt_trichotomy (x2 - x1) 0 with hdx | hdx | hdx
  · -- dx < 0: side 1 is an exit side, side 2 an entry side
    have hr1 : tb < (x - x1) / (x2 - x1) := by
      rw [lt_div_iff_of_neg hdx]
      linarith
    have hr2 : (x + w - x1) / (x2 - x1) < tt := by
      rw [div_lt_iff_of_neg hdx]
      linarith
    obtain ⟨s1, e1, e1a, e1b⟩ := sideStep_pos_ok (-1) 0 (-(x2 - x1)) (x1 - x)
      ⟨-numberMax, numberMax, 0, 0, 0, 0⟩ (neg_pos.mpr hdx)
      (by rw [hrw1]; show -numberMax ≤ (x - x1) / (x2 - x1); linarith)
    rw [e1]
    simp only [Except.bind]
    obtain ⟨s2, e2, e2a, e2b⟩ := sideStep_neg_ok 1 0 (x2 - x1) (x + w - x1) s1 hdx
      (by rw [e1b, hrw1]
          show (x + w - x1) / (x2 - x1) ≤ min numberMax ((x - x1) / (x2 - x1))
          exact le_min (by linarith) (by linarith))
    rw [e2]
    simp only [Except.bind]
    exact clip_tb_tail y y1 y2 h tt tb s2 hdy htt htb hlr
      (by rw [e2a, e1a]
          show max (-numberMax) ((x + w - x1) / (x2 - x1)) < tt
          exact max_lt (by linarith) hr2)
      (by rw [e2b, e1b, hrw1]
          show tb < min numberMax ((x - x1) / (x2 - x1))
          exact lt_min (by linarith) hr1)
  · -- dx = 0: both x sides are parallel and interior
    rw [hdx] at hb1 hb2
    rw [hdx, neg_zero, sideStep_p0_pos _ (by nlinarith)]
    simp only [Except.bind]
    rw [sideStep_p0_pos _ (by nlinarith)]
    simp only [Except.bind]
    exact clip_tb_tail y y1 y2 h tt tb _ hdy htt htb hlr
      (show -numberMax < tt by linarith)
      (show tb < numberMax by linarith)
  · -- dx > 0: side 1 is an entry side, side 2 an exit side
    have hr1 : (x - x1) / (x2 - x1) < tt := by
      rw [div_lt_iff₀ hdx]
      linarith
    have hr2 : tb < (x + w - x1) / (x2 - x1) := by
      rw [lt_div_iff₀ hdx]
      linarith
    obtain ⟨s1, e1, e1a, e1b⟩ := sideStep_neg_ok (-1) 0 (-(x2 - x1)) (x1 - x)
      ⟨-numberMax, numberMax, 0, 0, 0, 0⟩ (neg_lt_zero.mpr hdx)
      (by rw [hrw1]; show (x - x1) / (x2 - x1) ≤ numberMax; linarith)
    rw [e1]
    simp only [Except.bind]
    obtain ⟨s2, e2, e2a, e2b⟩ := sideStep_pos_ok 1 0 (x2 - x1) (x + w - x1) s1 hdx
      (by rw [e1a, hrw1]
          show max (-numberMax) ((x - x1) / (x2 - x1)) ≤ (x + w - x1) / (x2 - x1)
          exact max_le (by linarith) (by linarith))
    rw [e2]
    simp only [Except.bind]
    exact clip_tb_tail y y1 y2 h tt tb s2 hdy htt htb hlr
      (by rw [e2a, e1a, hrw1]
          show max (-numberMax) ((x - x1) / (x2 - x1)) < tt
          exact max_lt (by linarith) hr1)
      (by rw [e2b, e1b]
          show tb < min numberMax ((x + w - x1) / (x2 - x1))
          exact lt_min (by linarith) hr2)

/-- A segment crossing the bottom then the top side (`dy < 0`), staying
strictly inside the rectangle's x-band at both crossings, clips to
exactly those two parameters with the bottom/top outward normals, when
seeded with `(-numberMax, numberMax)`. -/
theorem clip_cross_bottom_top (x y w h x1 y1 x2 y2 te tx : ℚ)
    (hdy : y2 - y1 < 0)
    (hte : te = (y + h - y1) / (y2 - y1)) (htx : tx = (y - y1) / (y2 - y1))
    (h0 : 0 ≤ te) (h1 : tx ≤ 1) (hlr : te ≤ tx)
    (hb1 : x < x1 + te * (x2 - x1)) (hb2 : x1 + te * (x2 - x1) < x + w)
    (hb3 : x < x1 + tx * (x2 - x1)) (hb4 : x1 + tx * (x2 - x1) < x + w) :
    Rect.getSegmentIntersectionIndices x y w h x1 y1 x2 y2 (-numberMax) numberMax =
      .ok (te, tx, 0, 1, 0, -1) := by
  have hnm : (1 : ℚ) < numberMax := by norm_num [numberMax]
  have hrw1 : (x1 - x) / (-(x2 - x1)) = (x - x1) / (x2 - x1) := by
    rw [div_neg, ← neg_div, neg_sub]
  simp only [Rect.getSegmentIntersectionIndices]
  rcases lt_trichotomy (x2 - x1) 0 with hdx | hdx | hdx
  · have hr1 : tx < (x - x1) / (x2 - x1) := by
      rw [lt_div_iff_of_neg hdx]
      linarith
    have hr2 : (x + w - x1) / (x2 - x1) < te := by
      rw [div_lt_iff_of_neg hdx]
      linarith
    obtain ⟨s1, e1, e1a, e1b⟩ := sideStep_pos_ok (-1) 0 (-(x2 - x1)) (x1 - x)
      ⟨-numberMax, numberMax, 0, 0, 0, 0⟩ (neg_pos.mpr hdx)
      (by rw [hrw1]; show -numberMax ≤ (x - x1) / (x2 - x1); linarith)
    rw [e1]
    simp only [Except.bind]
    obtain ⟨s2, e2, e2a, e2b⟩ := sideStep_neg_ok 1 0 (x2 - x1) (x + w - x1) s1 hdx
      (by rw [e1b, hrw1]
          show (x + w - x1) / (x2 - x1) ≤ min numberMax ((x - x1) / (x2 - x1))
          exact le_min (by linarith) (by linarith))
    rw [e2]
    simp only [Except.bind]
    exact clip_bt_tail y y1 y2 h te tx s2 hdy hte htx hlr
      (by rw [e2a, e1a]
          show max (-numberMax) ((x + w - x1) / (x2 - x1)) < te
          exact max_lt (by linarith) hr2)
      (by rw [e2b, e1b, hrw1]
          show tx < min numberMax ((x - x1) / (x2 - x1))
          exact lt_min (by linarith) hr1)
  · rw [hdx] at hb1 hb2
    rw [hdx, neg_zero, sideStep_p0_pos _ (by nlinarith)]
    simp only [Except.bind]
    rw [sideStep_p0_pos _ (by nlinarith)]
    simp only [Except.bind]
    exact clip_bt_tail y y1 y2 h te tx _ hdy hte htx hlr
      (show -numberMax < te by linarith)
      (show tx < numberMax by linarith)
  · have hr1 : (x - x1) / (x2 - x1) < te := by
      rw [div_lt_iff₀ hdx]
      linarith
    have hr2 : tx < (x + w - x1) / (x2 - x1) := by
      rw [lt_div_iff₀ hdx]
      linarith
    obtain ⟨s1, e1, e1a, e1b⟩ := sideStep_neg_ok (-1) 0 (-(x2 - x1)) (x1 - x)
      ⟨-numberMax, numberMax, 0, 0, 0, 0⟩ (neg_lt_zero.mpr hdx)
      (by rw [hrw1]; show (x - x1) / (x2 - x1) ≤ numberMax; linarith)
    rw [e1]
    simp only [Except.bind]
    obtain ⟨s2, e2, e2a, e2b⟩ := sideStep_pos_ok 1 0 (x2 - x1) (x + w - x1) s1 hdx
      (by rw [e1a, hrw1]
          show max (-numberMax) ((x - x1) / (x2 - x1)) ≤ (x + w - x1) / (x2 - x1)
          exact max_le (by linarith) (by linarith))
    rw [e2]
    simp only [Except.bind]
    exact clip_bt_tail y y1 y2 h te tx s2 hdy hte htx hlr
      (by rw [e2a, e1a, hrw1]
          show max (-numberMax) ((x - x1) / (x2 - x1)) < te
          exact max_lt (by linarith) hr1)
      (by rw [e2b, e1b]
          show tx < min numberMax ((x + w - x1) / (x2 - x1))
          exact lt_min (by linarith) hr2)

/-- **C7 counterexample.**  The horizontal segment `(20,5)-(21,5)` lies
fully outside the rectangle `(0,0,10,10)` (its bounding box does not even
intersect it) and does not cross it, yet with seed bounds
`(-numberMax, numberMax)` the clip returns normally — with the supporting
line's parameters `(-20, -10)`, outside `[0, 1]` — instead of raising
the computation error. -/
theorem C7_outside_segment_no_error :
    Rect.getSegmentIntersectionIndices 0 0 10 10 20 5 21 5 (-numberMax) numberMax =
      .ok (-20, -10, -1, 0, 1, 0) ∧
    Rect.isIntersecting 0 0 10 10 20 5 1 0 = false := by
  constructor
  · norm_num [Rect.getSegmentIntersectionIndices, Rect.sideStep, Except.bind, numberMax]
  · norm_num [Rect.isIntersecting]

/-- **C7 (amended).**  With the seed bounds used by `detectCollision`
(`±numberMax`, the largest finite double — the code does not use
infinities): a segment parallel to one of the rectangle's sides and
starting on or outside that side raises the computation error (a
segment that lies fully outside without crossing does not raise in
general: if its supporting line crosses the rectangle, the clip returns
that line's parameters outside `[0,1]`); and a segment crossing exactly
two opposite sides of the rectangle (within the perpendicular band,
strictly so for the axis tested first) returns entry and exit normals
corresponding to those two sides, each axis-aligned. -/
theorem C7_clip_amended :
    (∀ x y w h x1 y1 x2 y2 ti1 ti2 : ℚ,
      ((x2 - x1 = 0 ∧ (x1 - x ≤ 0 ∨ x + w - x1 ≤ 0)) ∨
       (y2 - y1 = 0 ∧ (y1 - y ≤ 0 ∨ y + h - y1 ≤ 0))) →
      Rect.getSegmentIntersectionIndices x y w h x1 y1 x2 y2 ti1 ti2 = .error ()) ∧
    (∀ x y w h x1 y1 x2 y2 tl tr : ℚ, 0 < x2 - x1 →
      tl = (x - x1) / (x2 - x1) → tr = (x + w - x1) / (x2 - x1) →
      0 ≤ tl → tr ≤ 1 → tl ≤ tr →
      y ≤ y1 + tl * (y2 - y1) → y1 + tl * (y2 - y1) ≤ y + h →
      y ≤ y1 + tr * (y2 - y1) → y1 + tr * (y2 - y1) ≤ y + h →
      (y2 - y1 = 0 → y < y1 ∧ y1 < y + h) →
      Rect.getSegmentIntersectionIndices x y w h x1 y1 x2 y2 (-numberMax) numberMax =
        .ok (tl, tr, -1, 0, 1, 0)) ∧
    (∀ x y w h x1 y1 x2 y2 te tx : ℚ, x2 - x1 < 0 →
      te = (x + w - x1) / (x2 - x1) → tx = (x - x1) / (x2 - x1) →
      0 ≤ te → tx ≤ 1 → te ≤ tx →
      y ≤ y1 + te * (y2 - y1) → y1 + te * (y2 - y1) ≤ y + h →
      y ≤ y1 + tx * (y2 - y1) → y1 + tx * (y2 - y1) ≤ y + h →
      (y2 - y1 = 0 → y < y1 ∧ y1 < y + h) →
      Rect.getSegmentIntersectionIndices x y w h x1 y1 x2 y2 (-numberMax) numberMax =
        .ok (te, tx, 1, 0, -1, 0)) ∧
    (∀ x y w h x1 y1 x2 y2 tt tb : ℚ, 0 < y2 - y1 →
      tt = (y - y1) / (y2 - y1) → tb = (y + h - y1) / (y2 - y1) →
      0 ≤ tt → tb ≤ 1 → tt ≤ tb →
      x < x1 + tt * (x2 - x1) → x1 + tt * (x2 - x1) < x + w →
      x < x1 + tb * (x2 - x1) → x1 + tb * (x2 - x1) < x + w →
      Rect.getSegmentIntersectionIndices x y w h x1 y1 x2 y2 (-numberMax) numberMax =
        .ok (tt, tb, 0, -1, 0, 1)) ∧
    (∀ x y w h x1 y1 x2 y2 te tx : ℚ, y2 - y1 < 0 →
      te = (y + h - y1) / (y2 - y1) → tx = (y - y1) / (y2 - y1) →
      0 ≤ te → tx ≤ 1 → te ≤ tx →
      x < x1 + te * (x2 - x1) → x1 + te * (x2 - x1) < x + w →
      x < x1 + tx * (x2 - x1) → x1 + tx * (x2 - x1) < x + w →
      Rect.getSegmentIntersectionIndices x y w h x1 y1 x2 y2 (-numberMax) numberMax =
        .ok (te, tx, 0, 1, 0, -1)) :=
  ⟨clip_parallel_exterior, clip_cross_left_right, clip_cross_right_left,
    clip_cross_top_bottom, clip_cross_bottom_top⟩

/-- **C7 witness.** -/
theorem C7_clip_amended_witness :
    Rect.getSegmentIntersectionIndices 0 0 10 10 (-5) 5 15 5 (-numberMax) numberMax =
      .ok (1/4, 3/4, -1, 0, 1, 0) :=
  C7_clip_amended.2.1 0 0 10 10 (-5) 5 15 5 (1/4) (3/4)
    (by norm_num) (by norm_num) (by norm_num) (by norm_num) (by norm_num)
    (by norm_num) (by norm_num) (by norm_num) (by norm_num) (by norm_num)
    (fun _ => by norm_num)

/-- **C10** (confirmed).  When seeded with `ti1 ≤ ti2` and returning
normally, `getSegmentIntersectionIndices` only tightens the seed
parameter interval: `ti1 ≤ ti1' ≤ ti2' ≤ ti2`. -/
theorem C10_clip_narrows (x y w h x1 y1 x2 y2 ti1 ti2 t1 t2 a b c d : ℚ)
    (hseed : ti1 ≤ ti2)
    (hok : Rect.getSegmentIntersectionIndices x y w h x1 y1 x2 y2 ti1 ti2 =
      .ok (t1, t2, a, b, c, d)) :
    ti1 ≤ t1 ∧ t1 ≤ t2 ∧ t2 ≤ ti2 := by
  simp only [Rect.getSegmentIntersectionIndices] at hok
  cases e1 : Rect.sideStep (-1) 0 (-(x2 - x1)) (x1 - x) ⟨ti1, ti2, 0, 0, 0, 0⟩ with
  | error u => rw [e1] at hok; simp [Except.bind] at hok
  | ok s1 =>
  rw [e1] at hok
  simp only [Except.bind] at hok
  cases e2 : Rect.sideStep 1 0 (x2 - x1) (x + w - x1) s1 with
  | error u => rw [e2] at hok; simp [Except.bind] at hok
  | ok s2 =>
  rw [e2] at hok
  simp only [Except.bind] at hok
  cases e3 : Rect.sideStep 0 (-1) (-(y2 - y1)) (y1 - y) s2 with
  | error u => rw [e3] at hok; simp [Except.bind] at hok
  | ok s3 =>
  rw [e3] at hok
  simp only [Except.bind] at hok
  cases e4 : Rect.sideStep 0 1 (y2 - y1) (y + h - y1) s3 with
  | error u => rw [e4] at hok; simp [Except.bind] at hok
  | ok s4 =>
  rw [e4] at hok
  simp only [Except.bind, Except.ok.injEq, Prod.mk.injEq] at hok
  obtain ⟨h1, h2, -, -, -, -⟩ := hok
  have b1 := sideStep_ok_bounds (le_refl _) hseed (le_refl _) e1
  have b2 := sideStep_ok_bounds b1.1 b1.2.1 b1.2.2 e2
  have b3 := sideStep_ok_bounds b2.1 b2.2.1 b2.2.2 e3
  have b4 := sideStep_ok_bounds b3.1 b3.2.1 b3.2.2 e4
  exact h1 ▸ h2 ▸ b4

/-- **C10 witness.** -/
theorem C10_clip_narrows_witness :
    (0 : ℚ) ≤ 1/4 ∧ (1/4 : ℚ) ≤ 3/4 ∧ (3/4 : ℚ) ≤ 1 :=
  C10_clip_narrows 0 0 10 10 (-5) 5 15 5 0 1 (1/4) (3/4) (-1) 0 1 0
    (by norm_num)
    (by norm_num [Rect.getSegmentIntersectionIndices, Rect.sideStep, Except.bind])

end BumpSpec
